import Mathlib

/-!
Verification of the `useRipple` pointer-interaction controller
(`src/unnamed/part_003`, the `USE_RIPPLE_TS` hook source).

The hook is shallowly embedded as pure functions over an explicit state
record `Ripple`.  React `useState`/`useRef` cells become record fields;
the two `async` suspension points (the 150 ms touch delay in
`onPointerDown` and the minimum-press wait in `endPressAnimation`) are
split into a synchronous prefix and an explicit resumption function, as
in the source's event-loop semantics.  The Web Animations handle is
modelled by a fresh natural-number id together with the origin event the
animation was started with; reading `animation.currentTime` is an
environment input (`readTime`), `none` standing for a non-number reading
(`Infinity` in the source's `pressAnimationPlayState`).

Ripple geometry (`determineRippleSize`, `getTranslationCoordinates`) is
modelled over the reals; JavaScript division is modelled by `jsDiv`,
which maps division by zero to signed infinity / NaN as the JS `/`
operator does on finite operands.
-/

namespace URipple

/-- Constant `MINIMUM_PRESS_MS = 225` from the source. -/
def MINIMUM_PRESS_MS : ℚ := 225

/-- Constant `TOUCH_DELAY_MS = 150` from the source. -/
def TOUCH_DELAY_MS : ℚ := 150

/-- Constant `PRESS_GROW_MS = 450` from the source. -/
def PRESS_GROW_MS : ℚ := 450

/-- Pointer types (`event.pointerType`) relevant to the controller. -/
inductive PointerType where
  | mouse
  | touch
  | pen
deriving DecidableEq, Repr

/-- Event types (`event.type`) the five pointer handlers can receive. -/
inductive EventType where
  | pointerenter
  | pointerleave
  | pointerdown
  | pointerup
  | pointercancel
deriving DecidableEq, Repr

/-- The fields of a `React.PointerEvent` the controller reads. -/
structure PointerEvent where
  type : EventType
  pointerId : ℕ
  isPrimary : Bool
  pointerType : PointerType
  buttons : ℕ
  pageX : ℚ
  pageY : ℚ
deriving DecidableEq, Repr

/-- The `State` enum: `INACTIVE / TOUCH_DELAY / HOLDING / WAITING_FOR_CLICK`. -/
inductive State where
  | INACTIVE
  | TOUCH_DELAY
  | HOLDING
  | WAITING_FOR_CLICK
deriving DecidableEq, Repr

/-- A grow animation handle (`surface.animate(...)` result).  `id` models
reference identity of the `Animation` object (ids are issued from the
`nextId` counter, so distinct `animate` calls give distinct ids);
`origin` is the optional pointer event `startPressAnimation` was called
with, which determines the ripple's start translation. -/
structure Anim where
  id : ℕ
  origin : Option PointerEvent
deriving DecidableEq, Repr

/-- The mutable cells of one `useRipple` instance that carry control
state: `hovered`/`pressed` (`useState`), `stateRef`,
`rippleStartEventRef`, `growAnimationRef`.  `cancelled` records the ids
on which `.cancel()` has been called; `nextId` is the id supply for
fresh animation handles. -/
structure Ripple where
  hovered : Bool
  pressed : Bool
  state : State
  rippleStartEvent : Option PointerEvent
  growAnimation : Option Anim
  cancelled : List ℕ
  nextId : ℕ
deriving DecidableEq, Repr

/-- Environment of one hook instance: the `disabled` argument, and
whether `isBrowser && surfaceRef.current` holds (the guards at the top
of `startPressAnimation`). -/
structure Config where
  disabled : Bool
  hasSurface : Bool
deriving DecidableEq, Repr

/-- Initial hook state: `useState(false)` twice, `stateRef = INACTIVE`,
all refs null. -/
def initialRipple : Ripple :=
  { hovered := false
    pressed := false
    state := State.INACTIVE
    rippleStartEvent := none
    growAnimation := none
    cancelled := []
    nextId := 0 }

/-- Source `isTouch(event)`: `event.pointerType === 'touch'`. -/
def isTouch (event : PointerEvent) : Bool :=
  event.pointerType == PointerType.touch

/-- Source `shouldReactToEvent` (lines 55-64): reject when disabled or
not primary; reject when a tracked `rippleStartEventRef` has a different
`pointerId`; hover events react only for non-touch pointers; other
events require touch or `buttons === 1`. -/
def shouldReactToEvent (disabled : Bool) (rippleStartEvent : Option PointerEvent)
    (event : PointerEvent) : Bool :=
  if disabled || !event.isPrimary then false
  else if (match rippleStartEvent with
           | some startEvent => startEvent.pointerId != event.pointerId
           | none => false) then false
  else if event.type == EventType.pointerenter || event.type == EventType.pointerleave then
    !(isTouch event)
  else
    isTouch event || (event.buttons == 1)

/-- Source `startPressAnimation(event?)`: after the `isBrowser`/surface guards,
`setPressed(true)`, cancel the current grow animation, and install a
fresh animation handle carrying the origin event.  (The geometry it also
computes is modelled separately by `determineRippleSize` and
`getTranslationCoordinates`; it does not feed back into control state.) -/
def startPressAnimation (cfg : Config) (event : Option PointerEvent) (s : Ripple) : Ripple :=
  if cfg.hasSurface then
    { s with
      pressed := true
      cancelled := (match s.growAnimation with
                    | some a => a.id :: s.cancelled
                    | none => s.cancelled)
      growAnimation := some { id := s.nextId, origin := event }
      nextId := s.nextId + 1 }
  else s

/-- Result of a handler that may suspend in `endPressAnimation`:
either it completed synchronously, or it reached the minimum-press
`await`, carrying the state at the suspension point, the wait in ms, and
the captured animation handle used for the staleness check. -/
inductive EndResult where
  | immediate (s : Ripple)
  | deferred (s : Ripple) (waitMs : ℚ) (captured : Option Anim)
deriving DecidableEq, Repr

/-- The state at the synchronous end of the handler call (for a
deferred result, the state when the `await` was entered). -/
def EndResult.syncState : EndResult → Ripple
  | .immediate s => s
  | .deferred s _ _ => s

/-- The source's `pressAnimationPlayState`: `animation?.currentTime` when it is a
number, else `none` (standing for the source's `Infinity` default). -/
def pressAnimationPlayState (readTime : ℕ → Option ℚ) (animation : Option Anim) : Option ℚ :=
  animation.bind fun a => readTime a.id

/-- Source `endPressAnimation` (lines 132-145), synchronous prefix:
clear `rippleStartEventRef`, set `stateRef = INACTIVE`, read the grow
animation's elapsed time; if it is at least `MINIMUM_PRESS_MS` (or not a
number, i.e. `Infinity`), `setPressed(false)` at once, else suspend for
the remaining time with the captured handle. -/
def endPressAnimation (readTime : ℕ → Option ℚ) (s : Ripple) : EndResult :=
  match pressAnimationPlayState readTime s.growAnimation with
  | none =>
      EndResult.immediate { s with rippleStartEvent := none, state := State.INACTIVE, pressed := false }
  | some t =>
      if MINIMUM_PRESS_MS ≤ t then
        EndResult.immediate { s with rippleStartEvent := none, state := State.INACTIVE, pressed := false }
      else
        EndResult.deferred { s with rippleStartEvent := none, state := State.INACTIVE }
          (MINIMUM_PRESS_MS - t) s.growAnimation

/-- Resumption of `endPressAnimation` after its wait:
`if (growAnimationRef.current !== animation) return; setPressed(false)`. -/
def endPressAnimationResume (captured : Option Anim) (s : Ripple) : Ripple :=
  if s.growAnimation == captured then { s with pressed := false } else s

/-- Source `onPointerEnter`: if admissible, `setHovered(true)`. -/
def onPointerEnter (cfg : Config) (event : PointerEvent) (s : Ripple) : Ripple :=
  if shouldReactToEvent cfg.disabled s.rippleStartEvent event then
    { s with hovered := true }
  else s

/-- Source `onPointerLeave`: if admissible, `setHovered(false)` and, when the
state machine is active, begin the release sequence. -/
def onPointerLeave (cfg : Config) (readTime : ℕ → Option ℚ) (event : PointerEvent)
    (s : Ripple) : EndResult :=
  if shouldReactToEvent cfg.disabled s.rippleStartEvent event then
    if ({ s with hovered := false } : Ripple).state ≠ State.INACTIVE then
      endPressAnimation readTime { s with hovered := false }
    else
      EndResult.immediate { s with hovered := false }
  else EndResult.immediate s

/-- Source `onPointerUp` (lines 158-162): `HOLDING → WAITING_FOR_CLICK`
with no new animation; `TOUCH_DELAY → WAITING_FOR_CLICK` and start the
press animation with the stored `rippleStartEventRef` event. -/
def onPointerUp (cfg : Config) (event : PointerEvent) (s : Ripple) : Ripple :=
  if shouldReactToEvent cfg.disabled s.rippleStartEvent event then
    if s.state == State.HOLDING then
      { s with state := State.WAITING_FOR_CLICK }
    else if s.state == State.TOUCH_DELAY then
      startPressAnimation cfg s.rippleStartEvent { s with state := State.WAITING_FOR_CLICK }
    else s
  else s

/-- Result of the synchronous prefix of `onPointerDown`: the updated
state, and whether the 150 ms touch-delay timer was scheduled. -/
structure DownResult where
  state : Ripple
  scheduledDelay : Bool
deriving DecidableEq, Repr

/-- Source `onPointerDown` (lines 164-173), synchronous prefix: if
admissible, store the event in `rippleStartEventRef`; non-touch goes
straight to `WAITING_FOR_CLICK` and starts the animation; touch goes to
`TOUCH_DELAY` and schedules the `TOUCH_DELAY_MS` timer. -/
def onPointerDown (cfg : Config) (event : PointerEvent) (s : Ripple) : DownResult :=
  if shouldReactToEvent cfg.disabled s.rippleStartEvent event then
    if isTouch event then
      ⟨{ s with rippleStartEvent := some event, state := State.TOUCH_DELAY }, true⟩
    else
      ⟨startPressAnimation cfg (some event)
        { s with rippleStartEvent := some event, state := State.WAITING_FOR_CLICK }, false⟩
  else ⟨s, false⟩

/-- Resumption of `onPointerDown` when its 150 ms timer fires: a no-op
unless the state is still `TOUCH_DELAY`, else `HOLDING` and start the
press animation with the down event. -/
def onPointerDownResume (cfg : Config) (event : PointerEvent) (s : Ripple) : Ripple :=
  if s.state == State.TOUCH_DELAY then
    startPressAnimation cfg (some event) { s with state := State.HOLDING }
  else s

/-- Source `onPointerCancel`: if admissible, begin the release sequence. -/
def onPointerCancel (cfg : Config) (readTime : ℕ → Option ℚ) (event : PointerEvent)
    (s : Ripple) : EndResult :=
  if shouldReactToEvent cfg.disabled s.rippleStartEvent event then
    endPressAnimation readTime s
  else EndResult.immediate s

/-- Source `onClick` (lines 180-184): nothing when disabled; from
`WAITING_FOR_CLICK`, release; from `INACTIVE`, synthesize a press (no
origin event) and immediately release. -/
def onClick (cfg : Config) (readTime : ℕ → Option ℚ) (s : Ripple) : EndResult :=
  if cfg.disabled then EndResult.immediate s
  else if s.state == State.WAITING_FOR_CLICK then endPressAnimation readTime s
  else if s.state == State.INACTIVE then
    endPressAnimation readTime (startPressAnimation cfg none s)
  else EndResult.immediate s

/-- One controller entry point: the six handlers plus the two timer
resumptions (which can only be pending if earlier scheduled). -/
inductive Call where
  | enter (event : PointerEvent)
  | leave (event : PointerEvent) (readTime : ℕ → Option ℚ)
  | down (event : PointerEvent)
  | up (event : PointerEvent)
  | cancelEv (event : PointerEvent) (readTime : ℕ → Option ℚ)
  | click (readTime : ℕ → Option ℚ)
  | downResume (event : PointerEvent)
  | endResume (captured : Option Anim)

/-- Effect of one entry point on the control state (synchronous part;
deferrals are represented by their suspension-point state). -/
def step (cfg : Config) (s : Ripple) : Call → Ripple
  | .enter e => onPointerEnter cfg e s
  | .leave e rt => (onPointerLeave cfg rt e s).syncState
  | .down e => (onPointerDown cfg e s).state
  | .up e => onPointerUp cfg e s
  | .cancelEv e rt => (onPointerCancel cfg rt e s).syncState
  | .click rt => (onClick cfg rt s).syncState
  | .downResume e => onPointerDownResume cfg e s
  | .endResume c => endPressAnimationResume c s

/-! ### Ripple geometry (`determineRippleSize`, translation coordinates)

Modelled over the reals.  JavaScript division of finite doubles is
modelled by `jsDiv`: division by zero yields signed infinity (or NaN for
0/0), exactly as the `/` operator behaves on finite operands. -/

/-- Constant `INITIAL_ORIGIN_SCALE = 0.2` from the source. -/
noncomputable def INITIAL_ORIGIN_SCALE : ℝ := 0.2

/-- Constant `PADDING = 10` from the source. -/
noncomputable def PADDING : ℝ := 10

/-- Constant `SOFT_EDGE_MINIMUM_SIZE = 75` from the source. -/
noncomputable def SOFT_EDGE_MINIMUM_SIZE : ℝ := 75

/-- Constant valued `0.35` from the source, there named after the
soft-edge container proportion (renamed here for tooling reasons). -/
noncomputable def SOFT_EDGE_CONTAINER_FRAC : ℝ := 0.35

/-- A JavaScript number as produced by arithmetic on finite doubles:
finite, `Infinity`, `-Infinity`, or `NaN` (exact real arithmetic, no
rounding). -/
inductive JSNum where
  | finite (x : ℝ)
  | posInf
  | negInf
  | nan

/-- Predicate matching JavaScript `Number.isFinite`. -/
def JSNum.isFinite : JSNum → Bool
  | .finite _ => true
  | _ => false

open Classical in
/-- JavaScript `/` on finite operands: `a / 0` is `Infinity` for
`a > 0`, `-Infinity` for `a < 0`, and `NaN` for `0 / 0`. -/
noncomputable def jsDiv (a b : ℝ) : JSNum :=
  if b = 0 then
    if 0 < a then JSNum.posInf
    else if a < 0 then JSNum.negInf
    else JSNum.nan
  else JSNum.finite (a / b)

/-- The fields of `getBoundingClientRect()` the controller reads. -/
structure Rect where
  left : ℝ
  top : ℝ
  width : ℝ
  height : ℝ

/-- The two geometry refs `determineRippleSize` writes:
`initialSizeRef` and the numeric value stored (as a string) in
`rippleScaleRef`. -/
structure RippleSizeResult where
  initialSize : ℝ
  rippleScale : JSNum

/-- Source `determineRippleSize` (lines 66-76): from the surface's
bounding box, `maxDim = max(height, width)`,
`softEdgeSize = max(0.35 * maxDim, 75)`,
`initialSize = floor(maxDim * 0.2)`,
`hypotenuse = sqrt(width^2 + height^2)`, `maxRadius = hypotenuse + 10`,
and the stored scale `(maxRadius + softEdgeSize) / initialSize`. -/
noncomputable def determineRippleSize (rect : Rect) : RippleSizeResult :=
  let maxDim := max rect.height rect.width
  let softEdgeSize := max (SOFT_EDGE_CONTAINER_FRAC * maxDim) SOFT_EDGE_MINIMUM_SIZE
  let initialSize : ℝ := (⌊maxDim * INITIAL_ORIGIN_SCALE⌋ : ℤ)
  let hypotenuse := Real.sqrt (rect.width ^ 2 + rect.height ^ 2)
  let maxRadius := hypotenuse + PADDING
  { initialSize := initialSize
    rippleScale := jsDiv (maxRadius + softEdgeSize) initialSize }

/-- Source `getNormalizedPointerEventCoords`: the pointer's page coordinates
relative to the surface's document position (`(0,0)` outside a browser). -/
noncomputable def getNormalizedPointerEventCoords (isBrowser : Bool) (scrollX scrollY : ℝ)
    (rect : Rect) (event : PointerEvent) : ℝ × ℝ :=
  if isBrowser then
    ((event.pageX : ℝ) - (scrollX + rect.left), (event.pageY : ℝ) - (scrollY + rect.top))
  else (0, 0)

/-- Source `getTranslationCoordinates` (lines 91-105): the end point
centers the ripple in the surface; the start point is the normalized
pointer position — or the surface's center when no event is given — each
shifted by half the initial diameter.  Returns `(startPoint, endPoint)`. -/
noncomputable def getTranslationCoordinates (isBrowser : Bool) (scrollX scrollY : ℝ)
    (rect : Rect) (initialSize : ℝ) (event : Option PointerEvent) : (ℝ × ℝ) × (ℝ × ℝ) :=
  let endPoint : ℝ × ℝ := ((rect.width - initialSize) / 2, (rect.height - initialSize) / 2)
  let startPoint : ℝ × ℝ :=
    match event with
    | some e => getNormalizedPointerEventCoords isBrowser scrollX scrollY rect e
    | none => (rect.width / 2, rect.height / 2)
  ((startPoint.1 - initialSize / 2, startPoint.2 - initialSize / 2), endPoint)

/-! ### Claim theorems -/

/-- C1: whenever `endPressAnimation` runs, if the grow animation's
elapsed time (`currentTime`, infinity when unavailable, i.e. `none`
here) is at least `MINIMUM_PRESS_MS = 225`, `pressed` becomes false
immediately; otherwise the call suspends for exactly
`225 − elapsed` ms — during which `pressed` is unchanged, so a press
released at `t < 225` keeps `pressed` true until `t + (225 − t) = 225`
ms from animation start — and the resumption (with the handle still
current) then sets `pressed` to false. -/
theorem c1_minimum_visible_press (readTime : ℕ → Option ℚ) (s : Ripple) :
    (pressAnimationPlayState readTime s.growAnimation = none →
      endPressAnimation readTime s =
        EndResult.immediate
          { s with rippleStartEvent := none, state := State.INACTIVE, pressed := false }) ∧
    ∀ t, pressAnimationPlayState readTime s.growAnimation = some t →
      ((MINIMUM_PRESS_MS ≤ t →
          endPressAnimation readTime s =
            EndResult.immediate
              { s with rippleStartEvent := none, state := State.INACTIVE, pressed := false }) ∧
       (t < MINIMUM_PRESS_MS →
          endPressAnimation readTime s =
            EndResult.deferred { s with rippleStartEvent := none, state := State.INACTIVE }
              (MINIMUM_PRESS_MS - t) s.growAnimation ∧
          ({ s with rippleStartEvent := none, state := State.INACTIVE } : Ripple).pressed
            = s.pressed ∧
          t + (MINIMUM_PRESS_MS - t) = MINIMUM_PRESS_MS ∧
          (endPressAnimationResume s.growAnimation
            { s with rippleStartEvent := none, state := State.INACTIVE }).pressed = false)) := by
  refine ⟨?_, ?_⟩
  · intro h
    unfold endPressAnimation
    rw [h]
  · intro t ht
    refine ⟨?_, ?_⟩
    · intro hle
      unfold endPressAnimation
      rw [ht]
      simp [hle]
    · intro hlt
      refine ⟨?_, rfl, by ring, ?_⟩
      · unfold endPressAnimation
        rw [ht]
        simp [not_le.mpr hlt]
      · simp [endPressAnimationResume]

/-- Witness for C1 at a concrete input: an animation with handle id 0,
`pressed = true`, released when `currentTime = 100 < 225`. -/
theorem c1_minimum_visible_press_witness :
    pressAnimationPlayState (fun _ => some 100)
        ({ initialRipple with growAnimation := some ⟨0, none⟩, pressed := true } : Ripple).growAnimation
      = some 100 ∧
    (100 : ℚ) < MINIMUM_PRESS_MS ∧
    (endPressAnimation (fun _ => some 100)
        { initialRipple with growAnimation := some ⟨0, none⟩, pressed := true } =
      EndResult.deferred
        { ({ initialRipple with growAnimation := some ⟨0, none⟩, pressed := true } : Ripple) with
            rippleStartEvent := none, state := State.INACTIVE }
        (MINIMUM_PRESS_MS - 100)
        ({ initialRipple with growAnimation := some ⟨0, none⟩, pressed := true } : Ripple).growAnimation ∧
      ({ ({ initialRipple with growAnimation := some ⟨0, none⟩, pressed := true } : Ripple) with
          rippleStartEvent := none, state := State.INACTIVE } : Ripple).pressed
        = ({ initialRipple with growAnimation := some ⟨0, none⟩, pressed := true } : Ripple).pressed ∧
      (100 : ℚ) + (MINIMUM_PRESS_MS - 100) = MINIMUM_PRESS_MS ∧
      (endPressAnimationResume
          ({ initialRipple with growAnimation := some ⟨0, none⟩, pressed := true } : Ripple).growAnimation
          { ({ initialRipple with growAnimation := some ⟨0, none⟩, pressed := true } : Ripple) with
              rippleStartEvent := none, state := State.INACTIVE }).pressed = false) :=
  ⟨by decide, by decide,
    ((c1_minimum_visible_press (fun _ => some 100)
        { initialRipple with growAnimation := some ⟨0, none⟩, pressed := true }).2
      100 (by decide)).2 (by decide)⟩

/-- C2: with a surface attached, `startPressAnimation` cancels the
in-flight grow animation `a` and installs a fresh handle (its id is the
unused `nextId`, so it differs from `a`); consequently the deferred
completion of an earlier `endPressAnimation` that captured `a` is a
no-op on the new state — it never flips `pressed` (just set true by the
new press) back to false. -/
theorem c2_exclusive_ownership_stale_release (cfg : Config) (event : Option PointerEvent)
    (s : Ripple) (a : Anim)
    (hs : cfg.hasSurface = true) (hg : s.growAnimation = some a) (hfresh : a.id < s.nextId) :
    (startPressAnimation cfg event s).cancelled = a.id :: s.cancelled ∧
    (startPressAnimation cfg event s).growAnimation = some { id := s.nextId, origin := event } ∧
    (startPressAnimation cfg event s).growAnimation ≠ some a ∧
    endPressAnimationResume (some a) (startPressAnimation cfg event s)
      = startPressAnimation cfg event s ∧
    (startPressAnimation cfg event s).pressed = true ∧
    (endPressAnimationResume (some a) (startPressAnimation cfg event s)).pressed = true := by
  have hne : (some { id := s.nextId, origin := event } : Option Anim) ≠ some a := by
    intro h
    have h2 : ({ id := s.nextId, origin := event } : Anim) = a := Option.some.inj h
    have h3 : s.nextId = a.id := by rw [← h2]
    omega
  have h1 : startPressAnimation cfg event s =
      { s with
          pressed := true
          cancelled := a.id :: s.cancelled
          growAnimation := some { id := s.nextId, origin := event }
          nextId := s.nextId + 1 } := by
    unfold startPressAnimation
    rw [hg]
    simp [hs]
  have h4 : endPressAnimationResume (some a) (startPressAnimation cfg event s)
      = startPressAnimation cfg event s := by
    rw [h1]
    unfold endPressAnimationResume
    simp only [beq_iff_eq]
    rw [if_neg]
    exact hne
  refine ⟨by rw [h1], by rw [h1], by rw [h1]; exact hne, h4, by rw [h1], by rw [h4, h1]⟩

/-- Witness for C2: a controller with surface, current animation id 0,
`nextId = 1`, a fresh mouse press with no event payload. -/
theorem c2_exclusive_ownership_stale_release_witness :
    (startPressAnimation ⟨false, true⟩ none
        { initialRipple with growAnimation := some ⟨0, none⟩, nextId := 1 }).cancelled
      = (0 : ℕ) :: ({ initialRipple with growAnimation := some ⟨0, none⟩, nextId := 1 } : Ripple).cancelled ∧
    (startPressAnimation ⟨false, true⟩ none
        { initialRipple with growAnimation := some ⟨0, none⟩, nextId := 1 }).growAnimation
      = some { id := 1, origin := none } ∧
    (startPressAnimation ⟨false, true⟩ none
        { initialRipple with growAnimation := some ⟨0, none⟩, nextId := 1 }).growAnimation
      ≠ some ⟨0, none⟩ ∧
    endPressAnimationResume (some ⟨0, none⟩)
        (startPressAnimation ⟨false, true⟩ none
          { initialRipple with growAnimation := some ⟨0, none⟩, nextId := 1 })
      = startPressAnimation ⟨false, true⟩ none
          { initialRipple with growAnimation := some ⟨0, none⟩, nextId := 1 } ∧
    (startPressAnimation ⟨false, true⟩ none
        { initialRipple with growAnimation := some ⟨0, none⟩, nextId := 1 }).pressed = true ∧
    (endPressAnimationResume (some ⟨0, none⟩)
        (startPressAnimation ⟨false, true⟩ none
          { initialRipple with growAnimation := some ⟨0, none⟩, nextId := 1 })).pressed = true :=
  c2_exclusive_ownership_stale_release ⟨false, true⟩ none
    { initialRipple with growAnimation := some ⟨0, none⟩, nextId := 1 } ⟨0, none⟩
    rfl rfl (by decide)

/-- C3: `shouldReactToEvent` returns false exactly when the controller
is disabled, or the event is not primary, or a tracked session has a
different `pointerId`, or it is a hover event (`pointerenter` /
`pointerleave`) from a touch pointer, or it is a non-hover event from a
non-touch pointer without `buttons === 1`; when it returns false the
five pointer handlers leave the state unchanged and start no animation;
in particular any event whose `pointerId` differs from the tracked
`originEvent`'s is rejected. -/
theorem c3_event_admissibility (d : Bool) (rse : Option PointerEvent) (e : PointerEvent) :
    (shouldReactToEvent d rse e = false ↔
      (d = true ∨ e.isPrimary = false ∨
       (∃ s0, rse = some s0 ∧ s0.pointerId ≠ e.pointerId) ∨
       ((e.type = EventType.pointerenter ∨ e.type = EventType.pointerleave) ∧
         isTouch e = true) ∨
       (¬(e.type = EventType.pointerenter ∨ e.type = EventType.pointerleave) ∧
         isTouch e = false ∧ e.buttons ≠ 1))) ∧
    (∀ (cfg : Config) (s : Ripple) (readTime : ℕ → Option ℚ),
      cfg.disabled = d → s.rippleStartEvent = rse →
      shouldReactToEvent d rse e = false →
      onPointerEnter cfg e s = s ∧
      onPointerLeave cfg readTime e s = EndResult.immediate s ∧
      onPointerDown cfg e s = ⟨s, false⟩ ∧
      onPointerUp cfg e s = s ∧
      onPointerCancel cfg readTime e s = EndResult.immediate s) ∧
    (∀ s0, rse = some s0 → s0.pointerId ≠ e.pointerId →
      shouldReactToEvent d rse e = false) := by
  refine ⟨?_, ?_, ?_⟩
  · obtain ⟨ty, pid, prim, pty, btns, px, py⟩ := e
    rcases rse with _ | s0 <;>
      cases d <;> cases prim <;> cases ty <;> cases pty <;>
      by_cases hb : btns = 1 <;> simp_all [shouldReactToEvent, isTouch]
  · intro cfg s readTime hd hr h
    rw [← hd, ← hr] at h
    refine ⟨?_, ?_, ?_, ?_, ?_⟩
    · simp [onPointerEnter, h]
    · simp [onPointerLeave, h]
    · simp [onPointerDown, h]
    · simp [onPointerUp, h]
    · simp [onPointerCancel, h]
  · intro s0 h0 hne
    subst h0
    unfold shouldReactToEvent
    by_cases hd2 : (d || !e.isPrimary) = true
    · rw [if_pos hd2]
    · rw [if_neg hd2, if_pos]
      simp [hne]

/-- Witness for C3: pointer 1 (touch) owns the session; a pointerdown
from pointer 2 is rejected and `onPointerDown` changes nothing. -/
theorem c3_event_admissibility_witness :
    shouldReactToEvent false
        (some ⟨EventType.pointerdown, 1, true, PointerType.touch, 1, 0, 0⟩)
        ⟨EventType.pointerdown, 2, true, PointerType.touch, 1, 0, 0⟩ = false ∧
    onPointerDown ⟨false, true⟩
        ⟨EventType.pointerdown, 2, true, PointerType.touch, 1, 0, 0⟩
        { initialRipple with
            rippleStartEvent := some ⟨EventType.pointerdown, 1, true, PointerType.touch, 1, 0, 0⟩
            state := State.TOUCH_DELAY }
      = ⟨{ initialRipple with
            rippleStartEvent := some ⟨EventType.pointerdown, 1, true, PointerType.touch, 1, 0, 0⟩
            state := State.TOUCH_DELAY }, false⟩ :=
  ⟨(c3_event_admissibility false
      (some ⟨EventType.pointerdown, 1, true, PointerType.touch, 1, 0, 0⟩)
      ⟨EventType.pointerdown, 2, true, PointerType.touch, 1, 0, 0⟩).2.2
      ⟨EventType.pointerdown, 1, true, PointerType.touch, 1, 0, 0⟩ rfl (by decide),
   ((c3_event_admissibility false
      (some ⟨EventType.pointerdown, 1, true, PointerType.touch, 1, 0, 0⟩)
      ⟨EventType.pointerdown, 2, true, PointerType.touch, 1, 0, 0⟩).2.1
      ⟨false, true⟩
      { initialRipple with
          rippleStartEvent := some ⟨EventType.pointerdown, 1, true, PointerType.touch, 1, 0, 0⟩
          state := State.TOUCH_DELAY }
      (fun _ => none) rfl rfl
      ((c3_event_admissibility false
        (some ⟨EventType.pointerdown, 1, true, PointerType.touch, 1, 0, 0⟩)
        ⟨EventType.pointerdown, 2, true, PointerType.touch, 1, 0, 0⟩).2.2
        ⟨EventType.pointerdown, 1, true, PointerType.touch, 1, 0, 0⟩ rfl (by decide))).2.2.1⟩

/-- C4: `determineRippleSize` computes exactly the spec's formulas —
`initialDiameter = ⌊max(W,H) · 0.2⌋`, `softEdge = max(0.35·max(W,H), 75)`,
`maxRadius = √(W² + H²) + 10`,
`targetScale = (maxRadius + softEdge) / initialDiameter` — whenever the
initial diameter is nonzero; at W = 100, H = 40 this gives
`initialDiameter = 20`, `softEdge = 75`, and
`targetScale = (√11600 + 10 + 75) / 20`. -/
theorem c4_ripple_geometry_determinism :
    (∀ rect : Rect, (determineRippleSize rect).initialSize ≠ 0 →
      (determineRippleSize rect).initialSize
          = ((⌊max rect.width rect.height * (0.2 : ℝ)⌋ : ℤ) : ℝ) ∧
      (determineRippleSize rect).rippleScale
          = JSNum.finite
              ((Real.sqrt (rect.width ^ 2 + rect.height ^ 2) + 10
                  + max ((0.35 : ℝ) * max rect.width rect.height) 75)
                / ((⌊max rect.width rect.height * (0.2 : ℝ)⌋ : ℤ) : ℝ))) ∧
    ((determineRippleSize ⟨0, 0, 100, 40⟩).initialSize = 20 ∧
     (determineRippleSize ⟨0, 0, 100, 40⟩).rippleScale
        = JSNum.finite ((Real.sqrt 11600 + 10 + 75) / 20)) := by
  constructor
  · intro rect hne
    rw [determineRippleSize] at hne ⊢
    simp only [INITIAL_ORIGIN_SCALE, PADDING, SOFT_EDGE_MINIMUM_SIZE,
      SOFT_EDGE_CONTAINER_FRAC, jsDiv] at hne ⊢
    rw [max_comm rect.height rect.width] at hne ⊢
    exact ⟨rfl, by rw [if_neg hne]⟩
  · have hmax : max (40 : ℝ) 100 = 100 := by norm_num
    have hfloor : ⌊(100 : ℝ) * 0.2⌋ = (20 : ℤ) := by
      norm_num
    have hsoft : max ((0.35 : ℝ) * 100) 75 = (75 : ℝ) := by norm_num
    have hsq : (100 : ℝ) ^ 2 + (40 : ℝ) ^ 2 = 11600 := by norm_num
    rw [determineRippleSize]
    simp only [INITIAL_ORIGIN_SCALE, PADDING, SOFT_EDGE_MINIMUM_SIZE,
      SOFT_EDGE_CONTAINER_FRAC, jsDiv]
    rw [hmax, hfloor]
    norm_num [hsoft, hsq]

/-- Witness for C4's conditional part at W = 100, H = 40. -/
theorem c4_ripple_geometry_determinism_witness :
    (determineRippleSize ⟨0, 0, 100, 40⟩).initialSize ≠ 0 ∧
    ((determineRippleSize ⟨0, 0, 100, 40⟩).initialSize
        = ((⌊max (100 : ℝ) 40 * (0.2 : ℝ)⌋ : ℤ) : ℝ) ∧
     (determineRippleSize ⟨0, 0, 100, 40⟩).rippleScale
        = JSNum.finite
            ((Real.sqrt ((100 : ℝ) ^ 2 + (40 : ℝ) ^ 2) + 10
                + max ((0.35 : ℝ) * max (100 : ℝ) 40) 75)
              / ((⌊max (100 : ℝ) 40 * (0.2 : ℝ)⌋ : ℤ) : ℝ))) :=
  have hne : (determineRippleSize ⟨0, 0, 100, 40⟩).initialSize ≠ 0 := by
    rw [(c4_ripple_geometry_determinism.2).1]
    norm_num
  ⟨hne, c4_ripple_geometry_determinism.1 ⟨0, 0, 100, 40⟩ hne⟩

/-- C9: for any bounding box with nonnegative dimensions and
`max(width, height) < 5` (e.g. a hidden 0×0 element),
`determineRippleSize` computes `initialSize = ⌊maxDim · 0.2⌋ = 0` and the
stored scale is the JS division `(maxRadius + softEdge) / 0` of a
positive numerator, i.e. `Infinity` — not a finite number; the code has
no guard for this case. -/
theorem c9_zero_initial_diameter (rect : Rect)
    (hw : 0 ≤ rect.width) (hh : 0 ≤ rect.height)
    (hsmall : max rect.width rect.height < 5) :
    (determineRippleSize rect).initialSize = 0 ∧
    (determineRippleSize rect).rippleScale = JSNum.posInf ∧
    (determineRippleSize rect).rippleScale.isFinite = false := by
  have hmd0 : (0 : ℝ) ≤ max rect.height rect.width := le_max_of_le_left hh
  have hmd5 : max rect.height rect.width < 5 := by
    rw [max_comm]
    exact hsmall
  have hfloor : ⌊max rect.height rect.width * INITIAL_ORIGIN_SCALE⌋ = (0 : ℤ) := by
    rw [INITIAL_ORIGIN_SCALE, Int.floor_eq_zero_iff]
    constructor
    · positivity
    · nlinarith
  have hnum : (0 : ℝ) < Real.sqrt (rect.width ^ 2 + rect.height ^ 2) + PADDING
      + max (SOFT_EDGE_CONTAINER_FRAC * max rect.height rect.width) SOFT_EDGE_MINIMUM_SIZE := by
    have h1 : (0 : ℝ) ≤ Real.sqrt (rect.width ^ 2 + rect.height ^ 2) := Real.sqrt_nonneg _
    have h2 : (75 : ℝ) ≤ max (SOFT_EDGE_CONTAINER_FRAC * max rect.height rect.width)
        SOFT_EDGE_MINIMUM_SIZE := by
      rw [SOFT_EDGE_MINIMUM_SIZE]
      exact le_max_right _ _
    rw [PADDING]
    linarith
  rw [determineRippleSize]
  simp only [hfloor, jsDiv]
  norm_num [hnum, JSNum.isFinite]

/-- Witness for C9 at a 0×0 bounding box. -/
theorem c9_zero_initial_diameter_witness :
    (0 : ℝ) ≤ (Rect.mk 0 0 0 0).width ∧ (0 : ℝ) ≤ (Rect.mk 0 0 0 0).height ∧
    max (Rect.mk 0 0 0 0).width (Rect.mk 0 0 0 0).height < 5 ∧
    ((determineRippleSize ⟨0, 0, 0, 0⟩).initialSize = 0 ∧
     (determineRippleSize ⟨0, 0, 0, 0⟩).rippleScale = JSNum.posInf ∧
     (determineRippleSize ⟨0, 0, 0, 0⟩).rippleScale.isFinite = false) :=
  ⟨le_refl 0, le_refl 0, by norm_num,
   c9_zero_initial_diameter ⟨0, 0, 0, 0⟩ (le_refl 0) (le_refl 0) (by norm_num)⟩

/-- C5: an admissible touch `pointerdown` puts the phase in
`TOUCH_DELAY` (scheduling the 150 ms timer, starting no animation yet);
an admissible `pointerup` while the phase is still `TOUCH_DELAY` moves
it to `WAITING_FOR_CLICK` and starts the press animation with the
original stored pointerdown event; if instead the timer fires with the
phase still `TOUCH_DELAY`, the phase becomes `HOLDING` and the press
animation starts then. -/
theorem c5_touch_delay_release (cfg : Config) (e : PointerEvent) (s : Ripple)
    (hs : cfg.hasSurface = true)
    (hadm_ok : shouldReactToEvent cfg.disabled s.rippleStartEvent e = true)
    (htouch : isTouch e = true) :
    onPointerDown cfg e s
      = ⟨{ s with rippleStartEvent := some e, state := State.TOUCH_DELAY }, true⟩ ∧
    (∀ e2 : PointerEvent,
      shouldReactToEvent cfg.disabled (some e) e2 = true →
      onPointerUp cfg e2 { s with rippleStartEvent := some e, state := State.TOUCH_DELAY }
        = startPressAnimation cfg (some e)
            { s with rippleStartEvent := some e, state := State.WAITING_FOR_CLICK } ∧
      (onPointerUp cfg e2
          { s with rippleStartEvent := some e, state := State.TOUCH_DELAY }).state
        = State.WAITING_FOR_CLICK ∧
      (onPointerUp cfg e2
          { s with rippleStartEvent := some e, state := State.TOUCH_DELAY }).pressed = true ∧
      (onPointerUp cfg e2
          { s with rippleStartEvent := some e, state := State.TOUCH_DELAY }).growAnimation
        = some { id := s.nextId, origin := some e }) ∧
    ((onPointerDownResume cfg e
        { s with rippleStartEvent := some e, state := State.TOUCH_DELAY }).state
        = State.HOLDING ∧
     (onPointerDownResume cfg e
        { s with rippleStartEvent := some e, state := State.TOUCH_DELAY }).pressed = true ∧
     (onPointerDownResume cfg e
        { s with rippleStartEvent := some e, state := State.TOUCH_DELAY }).growAnimation
        = some { id := s.nextId, origin := some e }) := by
  refine ⟨?_, ?_, ?_⟩
  · simp [onPointerDown, hadm_ok, htouch]
  · intro e2 h2
    have hup : onPointerUp cfg e2 { s with rippleStartEvent := some e, state := State.TOUCH_DELAY }
        = startPressAnimation cfg (some e)
            { s with rippleStartEvent := some e, state := State.WAITING_FOR_CLICK } := by
      simp [onPointerUp, h2]
    refine ⟨hup, ?_, ?_, ?_⟩ <;> rw [hup] <;> simp [startPressAnimation, hs]
  · have hres : onPointerDownResume cfg e
        { s with rippleStartEvent := some e, state := State.TOUCH_DELAY }
        = startPressAnimation cfg (some e)
            { s with rippleStartEvent := some e, state := State.HOLDING } := by
      simp [onPointerDownResume]
    refine ⟨?_, ?_, ?_⟩ <;> rw [hres] <;> simp [startPressAnimation, hs]

/-- Witness for C5: a primary touch pointerdown (id 3) on an idle
controller, released while still in `TOUCH_DELAY`. -/
theorem c5_touch_delay_release_witness :
    onPointerDown ⟨false, true⟩ ⟨EventType.pointerdown, 3, true, PointerType.touch, 1, 8, 9⟩
        initialRipple
      = ⟨{ initialRipple with
            rippleStartEvent := some ⟨EventType.pointerdown, 3, true, PointerType.touch, 1, 8, 9⟩
            state := State.TOUCH_DELAY }, true⟩ ∧
    (onPointerUp ⟨false, true⟩ ⟨EventType.pointerup, 3, true, PointerType.touch, 0, 8, 9⟩
        { initialRipple with
            rippleStartEvent := some ⟨EventType.pointerdown, 3, true, PointerType.touch, 1, 8, 9⟩
            state := State.TOUCH_DELAY }).state = State.WAITING_FOR_CLICK ∧
    (onPointerUp ⟨false, true⟩ ⟨EventType.pointerup, 3, true, PointerType.touch, 0, 8, 9⟩
        { initialRipple with
            rippleStartEvent := some ⟨EventType.pointerdown, 3, true, PointerType.touch, 1, 8, 9⟩
            state := State.TOUCH_DELAY }).growAnimation
      = some { id := 0, origin := some ⟨EventType.pointerdown, 3, true, PointerType.touch, 1, 8, 9⟩ } :=
  have h := c5_touch_delay_release ⟨false, true⟩
    ⟨EventType.pointerdown, 3, true, PointerType.touch, 1, 8, 9⟩ initialRipple
    rfl (by decide) (by decide)
  ⟨h.1,
   (h.2.1 ⟨EventType.pointerup, 3, true, PointerType.touch, 0, 8, 9⟩ (by decide)).2.1,
   (h.2.1 ⟨EventType.pointerup, 3, true, PointerType.touch, 0, 8, 9⟩ (by decide)).2.2.2⟩

/-- C6: a click on an enabled controller in phase `INACTIVE` starts the
press animation with no origin event (so the translation start point is
the surface's center, shifted by half the initial diameter) and
immediately begins the release: the resulting suspension carries
`pressed = true`, phase `INACTIVE`, the fresh centered animation as its
captured handle, and after the full `MINIMUM_PRESS_MS` wait the
resumption sets `pressed` back to false — exactly one press+release
cycle. -/
theorem c6_synthetic_click (cfg : Config) (readTime : ℕ → Option ℚ) (s : Ripple)
    (hd : cfg.disabled = false) (hs : cfg.hasSurface = true)
    (hph : s.state = State.INACTIVE)
    (ht : readTime s.nextId = some 0) :
    (onClick cfg readTime s
      = EndResult.deferred
          { startPressAnimation cfg none s with
              rippleStartEvent := none, state := State.INACTIVE }
          MINIMUM_PRESS_MS (some { id := s.nextId, origin := none }) ∧
     ({ startPressAnimation cfg none s with
          rippleStartEvent := none, state := State.INACTIVE } : Ripple).pressed = true ∧
     ({ startPressAnimation cfg none s with
          rippleStartEvent := none, state := State.INACTIVE } : Ripple).state
        = State.INACTIVE ∧
     ({ startPressAnimation cfg none s with
          rippleStartEvent := none, state := State.INACTIVE } : Ripple).growAnimation
        = some { id := s.nextId, origin := none } ∧
     (endPressAnimationResume (some { id := s.nextId, origin := none })
        { startPressAnimation cfg none s with
            rippleStartEvent := none, state := State.INACTIVE }).pressed = false ∧
     (endPressAnimationResume (some { id := s.nextId, origin := none })
        { startPressAnimation cfg none s with
            rippleStartEvent := none, state := State.INACTIVE }).state = State.INACTIVE) ∧
    (∀ (b : Bool) (sx sy : ℝ) (rect : Rect) (isz : ℝ),
      ((getTranslationCoordinates b sx sy rect isz none).1).1 + isz / 2 = rect.width / 2 ∧
      ((getTranslationCoordinates b sx sy rect isz none).1).2 + isz / 2 = rect.height / 2) := by
  have hg : (startPressAnimation cfg none s).growAnimation
      = some { id := s.nextId, origin := none } := by
    simp [startPressAnimation, hs]
  have hp : (startPressAnimation cfg none s).pressed = true := by
    simp [startPressAnimation, hs]
  have hres : endPressAnimationResume (some { id := s.nextId, origin := none })
      ({ startPressAnimation cfg none s with
          rippleStartEvent := none, state := State.INACTIVE } : Ripple)
      = { startPressAnimation cfg none s with
          rippleStartEvent := none, state := State.INACTIVE, pressed := false } := by
    unfold endPressAnimationResume
    rw [if_pos]
    show ((startPressAnimation cfg none s).growAnimation
        == some { id := s.nextId, origin := none }) = true
    rw [hg]
    simp
  refine ⟨⟨?_, hp, rfl, hg, ?_, ?_⟩, ?_⟩
  · have h1 : onClick cfg readTime s
        = endPressAnimation readTime (startPressAnimation cfg none s) := by
      unfold onClick
      rw [hd]
      simp [hph]
    rw [h1]
    unfold endPressAnimation
    rw [show pressAnimationPlayState readTime (startPressAnimation cfg none s).growAnimation
        = some 0 by rw [hg]; simp [pressAnimationPlayState, ht]]
    norm_num [MINIMUM_PRESS_MS, hg]
  · rw [hres]
  · rw [hres]
  · intro b sx sy rect isz
    unfold getTranslationCoordinates
    constructor <;> ring

/-- Witness for C6 on a fresh enabled controller. -/
theorem c6_synthetic_click_witness :
    (onClick ⟨false, true⟩ (fun _ => some 0) initialRipple
      = EndResult.deferred
          { startPressAnimation ⟨false, true⟩ none initialRipple with
              rippleStartEvent := none, state := State.INACTIVE }
          MINIMUM_PRESS_MS (some { id := 0, origin := none }) ∧
     ({ startPressAnimation ⟨false, true⟩ none initialRipple with
          rippleStartEvent := none, state := State.INACTIVE } : Ripple).pressed = true ∧
     ({ startPressAnimation ⟨false, true⟩ none initialRipple with
          rippleStartEvent := none, state := State.INACTIVE } : Ripple).state
        = State.INACTIVE ∧
     ({ startPressAnimation ⟨false, true⟩ none initialRipple with
          rippleStartEvent := none, state := State.INACTIVE } : Ripple).growAnimation
        = some { id := 0, origin := none } ∧
     (endPressAnimationResume (some { id := 0, origin := none })
        { startPressAnimation ⟨false, true⟩ none initialRipple with
            rippleStartEvent := none, state := State.INACTIVE }).pressed = false ∧
     (endPressAnimationResume (some { id := 0, origin := none })
        { startPressAnimation ⟨false, true⟩ none initialRipple with
            rippleStartEvent := none, state := State.INACTIVE }).state = State.INACTIVE) ∧
    (∀ (b : Bool) (sx sy : ℝ) (rect : Rect) (isz : ℝ),
      ((getTranslationCoordinates b sx sy rect isz none).1).1 + isz / 2 = rect.width / 2 ∧
      ((getTranslationCoordinates b sx sy rect isz none).1).2 + isz / 2 = rect.height / 2) :=
  c6_synthetic_click ⟨false, true⟩ (fun _ => some 0) initialRipple rfl rfl rfl rfl

/-- C7: a `pointerenter` or `pointerleave` event whose pointer type is
touch is rejected by `shouldReactToEvent`, so `onPointerEnter` and
`onPointerLeave` leave the state — in particular `hovered` — unchanged. -/
theorem c7_touch_hover_exclusion (cfg : Config) (readTime : ℕ → Option ℚ)
    (e : PointerEvent) (s : Ripple) (htouch : e.pointerType = PointerType.touch) :
    (e.type = EventType.pointerenter →
      onPointerEnter cfg e s = s ∧ (onPointerEnter cfg e s).hovered = s.hovered) ∧
    (e.type = EventType.pointerleave →
      onPointerLeave cfg readTime e s = EndResult.immediate s ∧
      (onPointerLeave cfg readTime e s).syncState.hovered = s.hovered) := by
  have hfalse : (e.type = EventType.pointerenter ∨ e.type = EventType.pointerleave) →
      shouldReactToEvent cfg.disabled s.rippleStartEvent e = false := by
    intro hty
    unfold shouldReactToEvent
    by_cases h1 : (cfg.disabled || !e.isPrimary) = true
    · rw [if_pos h1]
    · rw [if_neg h1]
      by_cases h2 : (match s.rippleStartEvent with
          | some startEvent => startEvent.pointerId != e.pointerId
          | none => false) = true
      · rw [if_pos h2]
      · rw [if_neg h2, if_pos]
        · simp [isTouch, htouch]
        · rcases hty with h | h <;> simp [h]
  constructor
  · intro hty
    have h : onPointerEnter cfg e s = s := by
      simp [onPointerEnter, hfalse (Or.inl hty)]
    exact ⟨h, by rw [h]⟩
  · intro hty
    have h : onPointerLeave cfg readTime e s = EndResult.immediate s := by
      simp [onPointerLeave, hfalse (Or.inr hty)]
    exact ⟨h, by rw [h]; rfl⟩

/-- Witness for C7: touch hover events on a hovered controller change
nothing. -/
theorem c7_touch_hover_exclusion_witness :
    (onPointerEnter ⟨false, true⟩ ⟨EventType.pointerenter, 4, true, PointerType.touch, 0, 0, 0⟩
        { initialRipple with hovered := true }
      = { initialRipple with hovered := true } ∧
     (onPointerEnter ⟨false, true⟩ ⟨EventType.pointerenter, 4, true, PointerType.touch, 0, 0, 0⟩
        { initialRipple with hovered := true }).hovered
      = ({ initialRipple with hovered := true } : Ripple).hovered) ∧
    (onPointerLeave ⟨false, true⟩ (fun _ => none)
        ⟨EventType.pointerleave, 4, true, PointerType.touch, 0, 0, 0⟩
        { initialRipple with hovered := true }
      = EndResult.immediate { initialRipple with hovered := true } ∧
     (onPointerLeave ⟨false, true⟩ (fun _ => none)
        ⟨EventType.pointerleave, 4, true, PointerType.touch, 0, 0, 0⟩
        { initialRipple with hovered := true }).syncState.hovered
      = ({ initialRipple with hovered := true } : Ripple).hovered) :=
  ⟨(c7_touch_hover_exclusion ⟨false, true⟩ (fun _ => none)
      ⟨EventType.pointerenter, 4, true, PointerType.touch, 0, 0, 0⟩
      { initialRipple with hovered := true } rfl).1 rfl,
   (c7_touch_hover_exclusion ⟨false, true⟩ (fun _ => none)
      ⟨EventType.pointerleave, 4, true, PointerType.touch, 0, 0, 0⟩
      { initialRipple with hovered := true } rfl).2 rfl⟩

/-- C8: with `disabled = true`, no sequence of controller entry points
(the six handlers, and even the two timer resumptions) moves the state
away from the initial one; in particular `hovered` and `pressed` stay
false. -/
theorem c8_disabled_short_circuit (cfg : Config) (calls : List Call)
    (hd : cfg.disabled = true) :
    List.foldl (step cfg) initialRipple calls = initialRipple ∧
    (List.foldl (step cfg) initialRipple calls).hovered = false ∧
    (List.foldl (step cfg) initialRipple calls).pressed = false := by
  have hreact : ∀ (rse : Option PointerEvent) (e : PointerEvent),
      shouldReactToEvent cfg.disabled rse e = false := by
    intro rse e
    unfold shouldReactToEvent
    rw [hd]
    simp
  have hstep : ∀ c : Call, step cfg initialRipple c = initialRipple := by
    intro c
    cases c with
    | enter e => simp [step, onPointerEnter, hreact]
    | leave e rt => simp [step, onPointerLeave, hreact, EndResult.syncState]
    | down e => simp [step, onPointerDown, hreact]
    | up e => simp [step, onPointerUp, hreact]
    | cancelEv e rt => simp [step, onPointerCancel, hreact, EndResult.syncState]
    | click rt => simp [step, onClick, hd, EndResult.syncState]
    | downResume e => simp [step, onPointerDownResume, initialRipple]
    | endResume cap =>
        cases cap <;> simp [step, endPressAnimationResume, initialRipple]
  have hfold : List.foldl (step cfg) initialRipple calls = initialRipple := by
    induction calls with
    | nil => rfl
    | cons c cs ih => rw [List.foldl_cons, hstep c, ih]
  exact ⟨hfold, by rw [hfold]; rfl, by rw [hfold]; rfl⟩

/-- Witness for C8: a disabled controller fed a hover, a mouse press,
a touch press, a release, and a click. -/
theorem c8_disabled_short_circuit_witness :
    List.foldl (step ⟨true, true⟩) initialRipple
        [Call.enter ⟨EventType.pointerenter, 1, true, PointerType.mouse, 0, 0, 0⟩,
         Call.down ⟨EventType.pointerdown, 1, true, PointerType.mouse, 1, 0, 0⟩,
         Call.down ⟨EventType.pointerdown, 2, true, PointerType.touch, 1, 0, 0⟩,
         Call.up ⟨EventType.pointerup, 1, true, PointerType.mouse, 0, 0, 0⟩,
         Call.click (fun _ => some 0)]
      = initialRipple ∧
    (List.foldl (step ⟨true, true⟩) initialRipple
        [Call.enter ⟨EventType.pointerenter, 1, true, PointerType.mouse, 0, 0, 0⟩,
         Call.down ⟨EventType.pointerdown, 1, true, PointerType.mouse, 1, 0, 0⟩,
         Call.down ⟨EventType.pointerdown, 2, true, PointerType.touch, 1, 0, 0⟩,
         Call.up ⟨EventType.pointerup, 1, true, PointerType.mouse, 0, 0, 0⟩,
         Call.click (fun _ => some 0)]).hovered = false ∧
    (List.foldl (step ⟨true, true⟩) initialRipple
        [Call.enter ⟨EventType.pointerenter, 1, true, PointerType.mouse, 0, 0, 0⟩,
         Call.down ⟨EventType.pointerdown, 1, true, PointerType.mouse, 1, 0, 0⟩,
         Call.down ⟨EventType.pointerdown, 2, true, PointerType.touch, 1, 0, 0⟩,
         Call.up ⟨EventType.pointerup, 1, true, PointerType.mouse, 0, 0, 0⟩,
         Call.click (fun _ => some 0)]).pressed = false :=
  c8_disabled_short_circuit ⟨true, true⟩
    [Call.enter ⟨EventType.pointerenter, 1, true, PointerType.mouse, 0, 0, 0⟩,
     Call.down ⟨EventType.pointerdown, 1, true, PointerType.mouse, 1, 0, 0⟩,
     Call.down ⟨EventType.pointerdown, 2, true, PointerType.touch, 1, 0, 0⟩,
     Call.up ⟨EventType.pointerup, 1, true, PointerType.mouse, 0, 0, 0⟩,
     Call.click (fun _ => some 0)] rfl

/-- C10: `endPressAnimation` clears `rippleStartEvent` and resets the
phase to `INACTIVE` in its synchronous prefix — so the state carried at
its only suspension point (and the final state of an immediate
completion) already has no tracked origin event and phase `INACTIVE`,
with only `pressed` left pending (unchanged at the suspension point) —
and with no tracked origin event the ownership check in
`shouldReactToEvent` no longer blocks: any enabled, primary,
touch-or-primary-button pointerdown from any `pointerId` is admissible. -/
theorem c10_session_released_before_wait (readTime : ℕ → Option ℚ) (s : Ripple) :
    ((endPressAnimation readTime s).syncState.rippleStartEvent = none ∧
     (endPressAnimation readTime s).syncState.state = State.INACTIVE) ∧
    (∀ (s1 : Ripple) (w : ℚ) (cap : Option Anim),
      endPressAnimation readTime s = EndResult.deferred s1 w cap →
      s1.rippleStartEvent = none ∧ s1.state = State.INACTIVE ∧ s1.pressed = s.pressed) ∧
    (∀ e : PointerEvent, e.isPrimary = true → (isTouch e = true ∨ e.buttons = 1) →
      e.type = EventType.pointerdown →
      shouldReactToEvent false none e = true) := by
  refine ⟨?_, ?_, ?_⟩
  · unfold endPressAnimation
    cases hps : pressAnimationPlayState readTime s.growAnimation with
    | none => simp [EndResult.syncState]
    | some t =>
        by_cases hle : MINIMUM_PRESS_MS ≤ t <;>
          simp [hle, EndResult.syncState]
  · intro s1 w cap h
    unfold endPressAnimation at h
    cases hps : pressAnimationPlayState readTime s.growAnimation with
    | none =>
        rw [hps] at h
        exact absurd h (by simp)
    | some t =>
        rw [hps] at h
        by_cases hle : MINIMUM_PRESS_MS ≤ t
        · simp only [hle, ite_true] at h
          exact absurd h (by simp)
        · simp only [hle, ite_false] at h
          injection h with hs1 hw hcap
          rw [← hs1]
          exact ⟨rfl, rfl, rfl⟩
  · intro e hprim hbtn hty
    unfold shouldReactToEvent
    rw [hprim, hty]
    rcases hbtn with h | h <;> simp [h]

/-- Witness for C10: a release with a half-played animation; pointer 9's
touch pointerdown is admissible during the wait. -/
theorem c10_session_released_before_wait_witness :
    (((endPressAnimation (fun _ => some 100)
        { initialRipple with
            rippleStartEvent := some ⟨EventType.pointerdown, 1, true, PointerType.touch, 1, 0, 0⟩
            state := State.WAITING_FOR_CLICK
            growAnimation := some ⟨0, none⟩
            pressed := true
            nextId := 1 }).syncState.rippleStartEvent = none ∧
      (endPressAnimation (fun _ => some 100)
        { initialRipple with
            rippleStartEvent := some ⟨EventType.pointerdown, 1, true, PointerType.touch, 1, 0, 0⟩
            state := State.WAITING_FOR_CLICK
            growAnimation := some ⟨0, none⟩
            pressed := true
            nextId := 1 }).syncState.state = State.INACTIVE) ∧
     shouldReactToEvent false none
        ⟨EventType.pointerdown, 9, true, PointerType.touch, 1, 0, 0⟩ = true) :=
  ⟨(c10_session_released_before_wait (fun _ => some 100)
      { initialRipple with
          rippleStartEvent := some ⟨EventType.pointerdown, 1, true, PointerType.touch, 1, 0, 0⟩
          state := State.WAITING_FOR_CLICK
          growAnimation := some ⟨0, none⟩
          pressed := true
          nextId := 1 }).1,
   (c10_session_released_before_wait (fun _ => some 100) initialRipple).2.2
      ⟨EventType.pointerdown, 9, true, PointerType.touch, 1, 0, 0⟩ rfl (Or.inl rfl) rfl⟩

end URipple
